import Mathlib

/-!
Shallow embedding of the TinyBling firmware (ATtiny13 decorative LED badge).

Two firmware variants are modelled:
* the ambient variant (`software/demo/TinyBling.ino`): gamma table, pixel
  buffer (16 hues + 16 brightness values), buffer operations, a Galois LFSR
  pseudo random generator and the 8-state animation machine of `main`;
* the reactive "wheel of fortune" variant (`software/wof/TinyBlingWOF.ino`):
  the hue encoder `NEO_writeHue` and the button-triggered spin loops of `main`.

Machine integers are modelled as `Nat` with explicit `% 256` / `% 65536`
where eight/sixteen-bit overflow can occur; where a value provably cannot
overflow its C type the reduction is noted in a comment.  Byte emission to
the LED string is modelled as the list of bytes handed to `NEO_sendByte`.
-/

set_option maxRecDepth 100000

namespace TinyBling

/-! ### Gamma correction table (`gamma[]`, demo variant, lines 75-80) -/

/-- The 64-entry gamma correction table, copied verbatim from the source. -/
def gamma : List Nat :=
  [  0,   0,   0,   0,   0,   0,   0,   1,   1,   1,   2,   2,   3,   3,   4,   5,
     6,   7,   8,  10,  11,  13,  14,  16,  18,  20,  22,  25,  27,  30,  33,  36,
    39,  43,  47,  50,  55,  59,  63,  68,  73,  78,  83,  89,  95, 101, 107, 114,
   120, 127, 135, 142, 150, 158, 167, 175, 184, 193, 203, 213, 223, 233, 244, 255]

/-- Models `pgm_read_byte(&gamma[i])`: table lookup.  Every index used by the code
is at most 63, so the default value is never produced. -/
def gammaLookup (i : Nat) : Nat := gamma.getD i 0

/-! ### Low-level emission

`NEO_writeColor(r,g,b)` sends the three channel bytes in GRB wire order
(the `NEO_GRB` build configuration chosen in both source files). -/

def NEO_writeColor (r g b : Nat) : List Nat := [g, r, b]

/-! ### `NEO_writeHue` (wof variant, lines 78-88) -/

/-- Source expression `step = (hue & 63) << 2` (uint8; at most 252, so no truncation). -/
def stepWof (hue : Nat) : Nat := ((hue &&& 63) <<< 2) % 256

/-- Source expression `nstep = (63 << 2) - step` (uint8; `step ≤ 252`, so no wrap). -/
def nstepWof (hue : Nat) : Nat := (252 - stepWof hue) % 256

/-- Bytes emitted for one pixel by `NEO_writeHue(hue)`; the `default`
branch of the `switch` emits nothing. -/
def NEO_writeHue (hue : Nat) : List Nat :=
  let phase := hue >>> 6
  if phase = 0 then NEO_writeColor (nstepWof hue) (stepWof hue) 0
  else if phase = 1 then NEO_writeColor 0 (nstepWof hue) (stepWof hue)
  else if phase = 2 then NEO_writeColor (stepWof hue) 0 (nstepWof hue)
  else []

/-! ### Per-pixel encoding inside `NEO_show` (demo variant, lines 114-127) -/

/-- Source expression `step = NEO_hue[i] & 63`. -/
def stepShow (hue : Nat) : Nat := hue &&& 63

/-- The complementary ramp value `63 - step` used for `ncol`
(`step ≤ 63`, so the uint8 subtraction cannot wrap). -/
def nstepShow (hue : Nat) : Nat := 63 - stepShow hue

/-- Source expression `col = gamma[step >> (6 - bright)]`.  `bright` is always in `[0,6]`
when `NEO_show` runs, so the `6 - bright` shift amount never wraps. -/
def colShow (hue bright : Nat) : Nat :=
  gammaLookup (stepShow hue >>> (6 - bright))

/-- Source expression `ncol = gamma[(63 - step) >> (6 - bright)]`. -/
def ncolShow (hue bright : Nat) : Nat :=
  gammaLookup (nstepShow hue >>> (6 - bright))

/-- Bytes emitted for one pixel by the loop body of `NEO_show` — the
per-pixel hue+brightness encoder (`writeHueBright` in the specification).
The `default` branch of the `switch` emits nothing. -/
def writeHueBright (hue bright : Nat) : List Nat :=
  let phase := hue >>> 6
  if phase = 0 then NEO_writeColor (ncolShow hue bright) (colShow hue bright) 0
  else if phase = 1 then NEO_writeColor 0 (ncolShow hue bright) (colShow hue bright)
  else if phase = 2 then NEO_writeColor (colShow hue bright) 0 (ncolShow hue bright)
  else []

/-- The byte stream of one whole frame: `NEO_show` iterates the 16 pixel
positions and encodes each from the parallel hue/brightness buffers. -/
def NEO_showBytes (hue bright : List Nat) : List Nat :=
  (List.zipWith writeHueBright hue bright).flatten

/-! ### Pseudo random number generator (demo variant, lines 192-198) -/

/-- One step of the 16-bit Galois LFSR:
`rn = (rn >> 0x01) ^ (-(rn & 0x01) & 0xB400)`.
In uint16 arithmetic `-(rn & 1)` is `0xFFFF` when `rn` is odd and `0`
when it is even, so `-(rn & 1) & 0xB400` is `0xB400` or `0`. -/
def lfsrStep (rn : Nat) : Nat :=
  (rn >>> 1) ^^^ (if rn &&& 1 = 1 then 0xB400 else 0)

/-- Models `prng(maxvalue)`: advances the global state and returns
`rn % maxvalue`.  Modelled as a state transformer
`(return value, new state)`. -/
def prng (maxvalue rn : Nat) : Nat × Nat :=
  let r := lfsrStep rn
  (r % maxvalue, r)

/-- The PRNG seed: `uint16_t rn = 0xACE1;`. -/
def prngSeed : Nat := 0xACE1

/-- First `fuel` outputs of `prng(bound)` starting from state `rn`. -/
def prngOutputs : Nat → Nat → Nat → List Nat
  | 0, _, _ => []
  | fuel + 1, bound, rn =>
      let p := prng bound rn
      p.1 :: prngOutputs fuel bound p.2

/-! ### Helper lemmas about the encoders -/

lemma shiftRight6_eq (h : Nat) : h >>> 6 = h / 64 := by
  rw [Nat.shiftRight_eq_div_pow]

lemma writeHueBright_length_of_lt (h b : Nat) (hh : h < 192) :
    (writeHueBright h b).length = 3 := by
  simp only [writeHueBright, NEO_writeColor, shiftRight6_eq]
  have h3 : h / 64 = 0 ∨ h / 64 = 1 ∨ h / 64 = 2 := by omega
  rcases h3 with h3 | h3 | h3 <;> simp [h3]

lemma writeHueBright_eq_nil (h b : Nat) (hh : 192 ≤ h) :
    writeHueBright h b = [] := by
  simp only [writeHueBright, NEO_writeColor, shiftRight6_eq]
  rw [if_neg (by omega), if_neg (by omega), if_neg (by omega)]

lemma NEO_writeHue_length_of_lt (h : Nat) (hh : h < 192) :
    (NEO_writeHue h).length = 3 := by
  simp only [NEO_writeHue, NEO_writeColor, shiftRight6_eq]
  have h3 : h / 64 = 0 ∨ h / 64 = 1 ∨ h / 64 = 2 := by omega
  rcases h3 with h3 | h3 | h3 <;> simp [h3]

lemma NEO_writeHue_eq_nil (h : Nat) (hh : 192 ≤ h) :
    NEO_writeHue h = [] := by
  simp only [NEO_writeHue, NEO_writeColor, shiftRight6_eq]
  rw [if_neg (by omega), if_neg (by omega), if_neg (by omega)]

lemma NEO_showBytes_length : ∀ (hue bright : List Nat),
    hue.length = bright.length →
    (NEO_showBytes hue bright).length =
      3 * hue.countP (fun h => decide (h < 192))
  | [], _, _ => by simp [NEO_showBytes]
  | h :: hs, [], hlen => by simp at hlen
  | h :: hs, b :: bs, hlen => by
      have ih := NEO_showBytes_length hs bs (by simpa using hlen)
      simp only [NEO_showBytes, List.zipWith_cons_cons, List.flatten_cons,
        List.length_append, List.countP_cons] at *
      by_cases hlt : h < 192
      · rw [writeHueBright_length_of_lt h b hlt, ih]
        simp [hlt]
        ring
      · rw [writeHueBright_eq_nil h b (by omega), ih]
        simp [hlt]

/-! ### Claims about the encoders -/

/-- C10: the per-pixel encoder (both `NEO_writeHue` in the wof variant and
the per-pixel encoding inside `NEO_show` in the demo variant) emits exactly
3 channel bytes for every hue in `[0,192)` and no bytes at all for a hue in
`[192,256)` (the `switch` falls through to `default`); consequently a frame
contains `3 ×` (number of in-domain hues) bytes, and since the frame is the
plain concatenation of per-pixel emissions, an out-of-domain hue shortens
the frame and shifts the bytes of all subsequent pixels forward. -/
theorem claim10_frame_bytes :
    (∀ h b, h < 192 →
      (writeHueBright h b).length = 3 ∧ (NEO_writeHue h).length = 3) ∧
    (∀ h b, 192 ≤ h → h < 256 →
      writeHueBright h b = [] ∧ NEO_writeHue h = []) ∧
    (∀ hue bright : List Nat, hue.length = 16 → bright.length = 16 →
      (NEO_showBytes hue bright).length =
        3 * hue.countP (fun h => decide (h < 192))) ∧
    (∀ h b hs bs, NEO_showBytes (h :: hs) (b :: bs) =
      writeHueBright h b ++ NEO_showBytes hs bs) := by
  refine ⟨fun h b hh => ⟨writeHueBright_length_of_lt h b hh,
            NEO_writeHue_length_of_lt h hh⟩,
          fun h b hh _ => ⟨writeHueBright_eq_nil h b hh,
            NEO_writeHue_eq_nil h hh⟩,
          fun hue bright h1 h2 => NEO_showBytes_length hue bright (by omega),
          fun h b hs bs => ?_⟩
  simp [NEO_showBytes]

/-- Witness for C10 at concrete inputs. -/
theorem claim10_witness :
    ((writeHueBright 100 6).length = 3 ∧ (NEO_writeHue 100).length = 3) ∧
    (writeHueBright 200 6 = [] ∧ NEO_writeHue 200 = []) ∧
    (NEO_showBytes (List.replicate 16 200) (List.replicate 16 6)).length =
      3 * (List.replicate 16 200).countP (fun h => decide (h < 192)) ∧
    NEO_showBytes (100 :: List.replicate 15 200) (6 :: List.replicate 15 6) =
      writeHueBright 100 6 ++
        NEO_showBytes (List.replicate 15 200) (List.replicate 15 6) :=
  ⟨claim10_frame_bytes.1 100 6 (by decide),
   claim10_frame_bytes.2.1 200 6 (by decide) (by decide),
   claim10_frame_bytes.2.2.1 _ _ (by decide) (by decide),
   claim10_frame_bytes.2.2.2 100 6 _ _⟩

/-- C1 (amended): for every hue in `[0,192)` the wof encoder `NEO_writeHue`
satisfies `step + nstep = 252` exactly; the per-pixel encoding inside
`NEO_show` uses the unscaled ramp pair `(step, 63 - step)`, which sums to
`63` (252/4), not 252; and at every phase boundary (`hue mod 64 == 0`)
exactly TWO of the three emitted channels are zero (a pure primary colour),
both for `NEO_writeHue` and for the `NEO_show` encoding at full
brightness. -/
theorem claim1_amended (hue : Nat) (hh : hue < 192) :
    stepWof hue + nstepWof hue = 252 ∧
    stepShow hue + nstepShow hue = 63 ∧
    (hue % 64 = 0 →
      (NEO_writeHue hue).count 0 = 2 ∧ (writeHueBright hue 6).count 0 = 2) := by
  revert hh
  revert hue
  decide

/-- Counterexample for C1 as stated: at hue 0 (a phase boundary) the
`NEO_show` decomposition sums to 63, not 252, and the number of zero
channels emitted is 2, not 1. -/
theorem claim1_counterexample :
    stepShow 0 + nstepShow 0 ≠ 252 ∧
    0 % 64 = 0 ∧
    (NEO_writeHue 0).count 0 ≠ 1 ∧
    (writeHueBright 0 6).count 0 ≠ 1 := by decide

/-- Witness for C1 (amended) at hue 64. -/
theorem claim1_witness :
    (64 : Nat) < 192 ∧
    (stepWof 64 + nstepWof 64 = 252 ∧
     stepShow 64 + nstepShow 64 = 63 ∧
     (64 % 64 = 0 →
       (NEO_writeHue 64).count 0 = 2 ∧ (writeHueBright 64 6).count 0 = 2)) :=
  ⟨by decide, claim1_amended 64 (by decide)⟩

/-- C3: for every nonzero bound and every state, `prng` advances the 16-bit
Galois LFSR by one rightward-shift step with feedback constant `0xB400` and
returns the new state modulo the bound, so every return value is strictly
below the bound; and from the fixed seed `0xACE1` the outputs for bound 16
form the fixed deterministic sequence `[0, 8, 12, 14, 7, 3, 9, 4]`. -/
theorem claim3_prng (maxvalue rn : Nat) (hm : 0 < maxvalue) :
    ((prng maxvalue rn).1 = lfsrStep rn % maxvalue ∧
     (prng maxvalue rn).2 = lfsrStep rn ∧
     (prng maxvalue rn).1 < maxvalue) ∧
    prngOutputs 8 16 prngSeed = [0, 8, 12, 14, 7, 3, 9, 4] :=
  ⟨⟨rfl, rfl, Nat.mod_lt _ hm⟩, by decide⟩

/-- Witness for C3 at bound 16 and the seed state. -/
theorem claim3_witness :
    0 < 16 ∧
    (((prng 16 prngSeed).1 = lfsrStep prngSeed % 16 ∧
      (prng 16 prngSeed).2 = lfsrStep prngSeed ∧
      (prng 16 prngSeed).1 < 16) ∧
     prngOutputs 8 16 prngSeed = [0, 8, 12, 14, 7, 3, 9, 4]) :=
  ⟨by decide, claim3_prng 16 prngSeed (by decide)⟩

/-- C5: for every step in `[0,63]` the gamma-scaled channel value of the
`NEO_show` encoding is 0 at brightness 0 (the ramp is shifted right by 6,
indexing `gamma[0] = 0`), and at brightness 6 the gamma-table index equals
the raw step (shift by `6 - 6 = 0`); stated both for the raw shift
expressions and for the channel values `col`/`ncol` of the encoder. -/
theorem claim5_gamma_endpoints (step : Nat) (hs : step < 64) :
    gammaLookup (step >>> (6 - 0)) = 0 ∧
    step >>> (6 - 6) = step ∧
    colShow step 0 = 0 ∧ ncolShow step 0 = 0 ∧
    colShow step 6 = gammaLookup step ∧
    ncolShow step 6 = gammaLookup (63 - step) := by
  revert hs
  revert step
  decide

/-- Witness for C5 at step 63. -/
theorem claim5_witness :
    (63 : Nat) < 64 ∧
    (gammaLookup (63 >>> (6 - 0)) = 0 ∧
     63 >>> (6 - 6) = 63 ∧
     colShow 63 0 = 0 ∧ ncolShow 63 0 = 0 ∧
     colShow 63 6 = gammaLookup 63 ∧
     ncolShow 63 6 = gammaLookup (63 - 63)) :=
  ⟨by decide, claim5_gamma_endpoints 63 (by decide)⟩

/-- C9: one LFSR step of any nonzero 16-bit state is again nonzero (and
16-bit), so the generator can never reach the all-zero fixed point; in
particular every iterate from the seed `0xACE1` is nonzero. -/
theorem claim9_lfsr_nonzero :
    (∀ rn, 0 < rn → rn < 65536 →
      0 < lfsrStep rn ∧ lfsrStep rn < 65536) ∧
    (∀ n, 0 < lfsrStep^[n] prngSeed ∧ lfsrStep^[n] prngSeed < 65536) := by
  have key : ∀ rn, 0 < rn → rn < 65536 →
      0 < lfsrStep rn ∧ lfsrStep rn < 65536 := by
    intro rn h0 h16
    have hdiv : rn >>> 1 = rn / 2 := by
      rw [Nat.shiftRight_eq_div_pow, pow_one]
    unfold lfsrStep
    rcases Nat.even_or_odd rn with he | ho
    · have h1 : rn &&& 1 = 0 := by
        rw [Nat.and_one_is_mod, Nat.even_iff.mp he]
      rw [h1]
      simp only [if_neg (by omega : ¬(0 : Nat) = 1), Nat.xor_zero, hdiv]
      have := Nat.even_iff.mp he
      omega
    · have h1 : rn &&& 1 = 1 := by
        rw [Nat.and_one_is_mod, Nat.odd_iff.mp ho]
      rw [h1, if_pos rfl]
      constructor
      · by_contra hz
        push_neg at hz
        have hz0 : (rn >>> 1) ^^^ 0xB400 = 0 := by omega
        have : rn >>> 1 = 0xB400 := Nat.xor_eq_zero.mp hz0
        rw [hdiv] at this
        omega
      · have hlt : rn >>> 1 < 2 ^ 16 := by rw [hdiv]; omega
        have hc : (0xB400 : Nat) < 2 ^ 16 := by norm_num
        have := Nat.xor_lt_two_pow hlt hc
        omega
  refine ⟨key, fun n => ?_⟩
  induction n with
  | zero => exact ⟨by decide, by decide⟩
  | succ n ih =>
      rw [Function.iterate_succ_apply']
      exact key _ ih.1 ih.2

/-- Witness for C9 at the seed state. -/
theorem claim9_witness :
    0 < prngSeed ∧ prngSeed < 65536 ∧
    (0 < lfsrStep prngSeed ∧ lfsrStep prngSeed < 65536) :=
  ⟨by decide, by decide, claim9_lfsr_nonzero.1 prngSeed (by decide) (by decide)⟩

/-! ### High-level pixel-buffer operations (demo variant, lines 133-185)

The source keeps two parallel global arrays `NEO_hue[16]` and
`NEO_bright[16]`; the operations are modelled on `List Nat` (one list per
array, paired where an operation touches both). -/

/-- Models `NEO_set(number, hue)`: store the hue and reset brightness to 6. -/
def NEO_set (hue bright : List Nat) (number hv : Nat) :
    List Nat × List Nat :=
  (hue.set number hv, bright.set number 6)

/-- Models `NEO_fill(hue)`: overwrite every hue entry; brightness untouched. -/
def NEO_fill (hue : List Nat) (hv : Nat) : List Nat :=
  hue.map (fun _ => hv)

/-- Models `NEO_fadeIn()`: per entry, if brightness `< 6` increment it. -/
def NEO_fadeIn (bright : List Nat) : List Nat :=
  bright.map (fun b => if b < 6 then b + 1 else b)

/-- Models `NEO_fadeOut()`: per entry, if brightness is nonzero decrement it. -/
def NEO_fadeOut (bright : List Nat) : List Nat :=
  bright.map (fun b => if b ≠ 0 then b - 1 else b)

/-- One array's worth of `NEO_cw`: the loop saves the last element, moves
every element one slot up (descending, so each read sees the old value)
and stores the saved element at slot 0 — i.e. `last :: dropLast`. -/
def cwList (l : List Nat) : List Nat :=
  match l.getLast? with
  | some x => x :: l.dropLast
  | none => []

/-- One array's worth of `NEO_ccw`: saves element 0, moves every element
one slot down (ascending) and stores the saved element at slot 15 —
i.e. `tail ++ [head]`. -/
def ccwList (l : List Nat) : List Nat :=
  match l with
  | [] => []
  | x :: xs => xs ++ [x]

/-- Models `NEO_cw()`: rotate both parallel arrays clockwise by one. -/
def NEO_cw (s : List Nat × List Nat) : List Nat × List Nat :=
  (cwList s.1, cwList s.2)

/-- Models `NEO_ccw()`: rotate both parallel arrays counter-clockwise by one. -/
def NEO_ccw (s : List Nat × List Nat) : List Nat × List Nat :=
  (ccwList s.1, ccwList s.2)

/-! ### Rotation lemmas (C4) -/

lemma ccwList_eq_rotate (l : List Nat) : ccwList l = l.rotate 1 := by
  cases l with
  | nil => rfl
  | cons x xs => rw [ccwList, List.rotate_cons_succ, List.rotate_zero]

lemma ccwList_iterate (k : Nat) (l : List Nat) :
    ccwList^[k] l = l.rotate k := by
  induction k generalizing l with
  | zero => simp
  | succ k ih =>
      rw [Function.iterate_succ_apply', ih, ccwList_eq_rotate,
        List.rotate_rotate]

lemma cwList_ccwList (l : List Nat) : cwList (ccwList l) = l := by
  cases l with
  | nil => rfl
  | cons x xs =>
      rw [ccwList, cwList, List.getLast?_concat]
      rw [List.dropLast_concat]

lemma cwList_ccwList_iterate (k : Nat) (l : List Nat) :
    cwList^[k] (ccwList^[k] l) = l := by
  induction k generalizing l with
  | zero => rfl
  | succ k ih =>
      rw [Function.iterate_succ_apply', Function.iterate_succ_apply, ih,
        cwList_ccwList]

lemma ccwList_iterate_length (l : List Nat) :
    ccwList^[l.length] l = l := by
  rw [ccwList_iterate, List.rotate_length]

lemma cwList_iterate_length (l : List Nat) :
    cwList^[l.length] l = l := by
  have h2 := cwList_ccwList_iterate l.length l
  rwa [ccwList_iterate_length] at h2

lemma cwList_eq_rotate (l : List Nat) (hl : l.length = 16) :
    cwList l = l.rotate 15 := by
  have h16 : ccwList^[16] l = l := by
    have := ccwList_iterate_length l
    rwa [hl] at this
  conv_lhs => rw [← h16]
  rw [show (16 : Nat) = 15 + 1 from rfl, Function.iterate_succ_apply',
    cwList_ccwList, ccwList_iterate]

lemma NEO_cw_iterate (k : Nat) (h b : List Nat) :
    NEO_cw^[k] (h, b) = (cwList^[k] h, cwList^[k] b) := by
  induction k with
  | zero => rfl
  | succ k ih => simp only [Function.iterate_succ_apply', ih]; rfl

lemma NEO_ccw_iterate (k : Nat) (h b : List Nat) :
    NEO_ccw^[k] (h, b) = (ccwList^[k] h, ccwList^[k] b) := by
  induction k with
  | zero => rfl
  | succ k ih => simp only [Function.iterate_succ_apply', ih]; rfl

/-- C4: for every 16-entry pixel buffer, 16 applications of `NEO_cw` (and
likewise of `NEO_ccw`) restore the buffer exactly; a single rotation
circularly shifts BOTH parallel arrays by one position in the same
direction (`NEO_ccw` is `rotate 1`, `NEO_cw` is `rotate 15` on each
array), so the (hue, brightness) pairing per logical LED is preserved. -/
theorem claim4_rotation (h b : List Nat)
    (hh : h.length = 16) (hb : b.length = 16) :
    NEO_cw^[16] (h, b) = (h, b) ∧
    NEO_ccw^[16] (h, b) = (h, b) ∧
    NEO_cw (h, b) = (h.rotate 15, b.rotate 15) ∧
    NEO_ccw (h, b) = (h.rotate 1, b.rotate 1) := by
  refine ⟨?_, ?_, ?_, ?_⟩
  · rw [NEO_cw_iterate]
    rw [show (16 : Nat) = h.length from hh.symm] at *
    rw [cwList_iterate_length]
    rw [show h.length = b.length by omega, cwList_iterate_length]
  · rw [NEO_ccw_iterate]
    rw [show (16 : Nat) = h.length from hh.symm] at *
    rw [ccwList_iterate_length]
    rw [show h.length = b.length by omega, ccwList_iterate_length]
  · rw [NEO_cw, cwList_eq_rotate h hh, cwList_eq_rotate b hb]
  · rw [NEO_ccw, ccwList_eq_rotate, ccwList_eq_rotate]

/-- Witness for C4 on the concrete buffer `(range 16, range 16)`. -/
theorem claim4_witness :
    NEO_cw^[16] (List.range 16, List.range 16) =
      (List.range 16, List.range 16) ∧
    NEO_ccw^[16] (List.range 16, List.range 16) =
      (List.range 16, List.range 16) ∧
    NEO_cw (List.range 16, List.range 16) =
      ((List.range 16).rotate 15, (List.range 16).rotate 15) ∧
    NEO_ccw (List.range 16, List.range 16) =
      ((List.range 16).rotate 1, (List.range 16).rotate 1) :=
  claim4_rotation (List.range 16) (List.range 16) (by decide) (by decide)

/-! ### Fade lemmas (C6) -/

/-- The per-entry step of `NEO_fadeIn`. -/
def fadeInStep (b : Nat) : Nat := if b < 6 then b + 1 else b

/-- The per-entry step of `NEO_fadeOut`. -/
def fadeOutStep (b : Nat) : Nat := if b ≠ 0 then b - 1 else b

lemma NEO_fadeIn_getD (l : List Nat) (i : Nat) (hi : i < l.length) :
    (NEO_fadeIn l).getD i 0 = fadeInStep (l.getD i 0) := by
  simp only [NEO_fadeIn, fadeInStep, List.getD_eq_getElem?_getD,
    List.getElem?_map]
  rw [List.getElem?_eq_getElem hi]
  rfl

lemma NEO_fadeOut_getD (l : List Nat) (i : Nat) (hi : i < l.length) :
    (NEO_fadeOut l).getD i 0 = fadeOutStep (l.getD i 0) := by
  simp only [NEO_fadeOut, fadeOutStep, List.getD_eq_getElem?_getD,
    List.getElem?_map]
  rw [List.getElem?_eq_getElem hi]
  rfl

lemma NEO_fadeIn_iterate_getD (k : Nat) (l : List Nat) (i : Nat)
    (hi : i < l.length) :
    (NEO_fadeIn^[k] l).getD i 0 = fadeInStep^[k] (l.getD i 0) := by
  induction k generalizing l with
  | zero => rfl
  | succ k ih =>
      rw [Function.iterate_succ_apply, Function.iterate_succ_apply]
      rw [ih (NEO_fadeIn l) (by simpa [NEO_fadeIn] using hi),
        NEO_fadeIn_getD l i hi]

lemma NEO_fadeOut_iterate_getD (k : Nat) (l : List Nat) (i : Nat)
    (hi : i < l.length) :
    (NEO_fadeOut^[k] l).getD i 0 = fadeOutStep^[k] (l.getD i 0) := by
  induction k generalizing l with
  | zero => rfl
  | succ k ih =>
      rw [Function.iterate_succ_apply, Function.iterate_succ_apply]
      rw [ih (NEO_fadeOut l) (by simpa [NEO_fadeOut] using hi),
        NEO_fadeOut_getD l i hi]

/-- C6: at any position holding brightness 0, six applications of
`NEO_fadeIn` yield brightness exactly 6 and a seventh leaves it at 6;
dually, from brightness 6, six applications of `NEO_fadeOut` yield exactly
0 and a seventh leaves it at 0 — each operation is a no-op at its
extreme. -/
theorem claim6_fade (l : List Nat) (i : Nat) (hi : i < l.length) :
    (l.getD i 0 = 0 →
      (NEO_fadeIn^[6] l).getD i 0 = 6 ∧ (NEO_fadeIn^[7] l).getD i 0 = 6) ∧
    (l.getD i 0 = 6 →
      (NEO_fadeOut^[6] l).getD i 0 = 0 ∧
      (NEO_fadeOut^[7] l).getD i 0 = 0) := by
  constructor
  · intro h0
    rw [NEO_fadeIn_iterate_getD 6 l i hi, NEO_fadeIn_iterate_getD 7 l i hi,
      h0]
    exact ⟨by decide, by decide⟩
  · intro h6
    rw [NEO_fadeOut_iterate_getD 6 l i hi,
      NEO_fadeOut_iterate_getD 7 l i hi, h6]
    exact ⟨by decide, by decide⟩

/-- Witness for C6 on concrete all-0 / all-6 buffers at position 3. -/
theorem claim6_witness :
    (((List.replicate 16 0).getD 3 0 = 0 →
      (NEO_fadeIn^[6] (List.replicate 16 0)).getD 3 0 = 6 ∧
      (NEO_fadeIn^[7] (List.replicate 16 0)).getD 3 0 = 6) ∧
     ((List.replicate 16 0).getD 3 0 = 6 →
      (NEO_fadeOut^[6] (List.replicate 16 0)).getD 3 0 = 0 ∧
      (NEO_fadeOut^[7] (List.replicate 16 0)).getD 3 0 = 0)) ∧
    (((List.replicate 16 6).getD 3 0 = 0 →
      (NEO_fadeIn^[6] (List.replicate 16 6)).getD 3 0 = 6 ∧
      (NEO_fadeIn^[7] (List.replicate 16 6)).getD 3 0 = 6) ∧
     ((List.replicate 16 6).getD 3 0 = 6 →
      (NEO_fadeOut^[6] (List.replicate 16 6)).getD 3 0 = 0 ∧
      (NEO_fadeOut^[7] (List.replicate 16 6)).getD 3 0 = 0)) :=
  ⟨claim6_fade (List.replicate 16 0) 3 (by decide),
   claim6_fade (List.replicate 16 6) 3 (by decide)⟩

/-! ### The ambient animation state machine (demo variant, `main`, lines 223-294)

One "tick" is one pass through the `while(1)` body: the `switch` on
`state` (the animation action), then `if(!(--counter)) { counter = 76;
if(++state > 7) state = 0; }`, then sleep until the next watchdog wake.
All variables are 8-bit except the 16-bit PRNG state. -/

structure AmbState where
  state : Nat
  counter : Nat
  hue1 : Nat
  hue2 : Nat
  ptr1 : Nat
  ptr2 : Nat
  hue : List Nat
  bright : List Nat
  rn : Nat
deriving DecidableEq

/-- The recurring idiom `if(h > 191) h -= 192;`. -/
def wrap192 (x : Nat) : Nat := if x > 191 then x - 192 else x

/-- State 2's loop `for(uint8_t i=prng(4); i; i--)
NEO_set(prng(16), prng(192));`.  C does not fix the evaluation order of
the two argument calls; the model evaluates `prng(16)` first (none of the
verified claims depends on this choice: both draws stay bounded and the
non-buffer fields are unaffected). -/
def sparkle : Nat → List Nat → List Nat → Nat → List Nat × List Nat × Nat
  | 0, h, b, rn => (h, b, rn)
  | k + 1, h, b, rn =>
      let p := prng 16 rn
      let q := prng 192 p.2
      let hb := NEO_set h b p.1 q.1
      sparkle k hb.1 hb.2 q.2

/-- The `switch(state)` animation action of one tick. -/
def tickAction (s : AmbState) : AmbState :=
  if s.state = 0 then
    { s with hue1 := 0, hue2 := 96, ptr1 := 0, ptr2 := 8, counter := 1 }
  else if s.state = 1 then
    let b1 := NEO_fadeOut s.bright
    let h1 := wrap192 ((s.hue1 + 4) % 256)
    let h2 := wrap192 ((s.hue2 + 4) % 256)
    let p1 := (s.ptr1 + 1) &&& 15
    let p2 := (s.ptr2 + 1) &&& 15
    let hb := NEO_set s.hue b1 p1 h1
    let hb2 := NEO_set hb.1 hb.2 p2 h2
    { s with hue := hb2.1, bright := hb2.2,
             hue1 := h1, hue2 := h2, ptr1 := p1, ptr2 := p2 }
  else if s.state = 2 then
    let b1 := NEO_fadeOut s.bright
    let c := prng 4 s.rn
    let r := sparkle c.1 s.hue b1 c.2
    { s with hue := r.1, bright := r.2.1, rn := r.2.2 }
  else if s.state = 3 then
    let r := (List.range 16).foldl
      (fun acc i =>
        let p := prng 192 acc.2.2
        (acc.1.set i p.1, acc.2.1.set i 6, p.2))
      (s.hue, s.bright, s.rn)
    { s with hue := r.1, bright := r.2.1, rn := r.2.2, counter := 1 }
  else if s.state = 4 then
    let r := (List.range 16).foldl
      (fun acc i =>
        let p := prng 8 acc.2
        (acc.1.set i (wrap192 ((acc.1.getD i 0 + p.1) % 256)), p.2))
      (s.hue, s.rn)
    { s with hue := r.1, rn := r.2 }
  else if s.state = 5 then
    let r := (List.range 16).foldl
      (fun acc i => (acc.1.set i acc.2.2, acc.2.1.set i 6,
        (acc.2.2 + 12) % 256))
      (s.hue, s.bright, 0)
    { s with hue := r.1, bright := r.2.1, hue1 := r.2.2, counter := 1 }
  else if s.state = 6 then
    let p := NEO_cw (s.hue, s.bright)
    { s with hue := p.1, bright := p.2 }
  else if s.state = 7 then
    let h1 := wrap192 ((s.hue1 + 3) % 256)
    { s with hue1 := h1, hue := NEO_fill s.hue h1 }
  else s

/-- The duration-counter logic after the `switch`:
`if(!(--counter)) { counter = 76; if(++state > 7) state = 0; }`
(all in uint8 arithmetic). -/
def tickCounter (s : AmbState) : AmbState :=
  let c := (s.counter + 255) % 256
  if c = 0 then
    { s with counter := 76,
             state := if (s.state + 1) % 256 > 7 then 0
                      else (s.state + 1) % 256 }
  else { s with counter := c }

/-- One full tick of the ambient main loop. -/
def tick (s : AmbState) : AmbState := tickCounter (tickAction s)

/-- The machine state on entry to the first tick.  In the C source
`counter`, `hue1`, `hue2`, `ptr1` and `ptr2` are locals with no starting
value, but
the first tick executes state 0, which assigns all of them before any
read, so the values chosen here are immaterial; the global pixel buffers
start out as all zeros and `rn` carries the seed. -/
def initState : AmbState :=
  { state := 0, counter := 76, hue1 := 0, hue2 := 0, ptr1 := 0, ptr2 := 0,
    hue := List.replicate 16 0, bright := List.replicate 16 0,
    rn := prngSeed }

/-- Evaluation `run n s`: the machine state after `n` ticks from `s`. -/
def run : Nat → AmbState → AmbState
  | 0, s => s
  | n + 1, s => run n (tick s)

/-- Predicate `noReturn n s = true` holds iff the state value is nonzero after each of the
first `n` ticks from `s`. -/
def noReturn : Nat → AmbState → Bool
  | 0, _ => true
  | n + 1, s =>
      let s2 := tick s
      (s2.state != 0) && noReturn n s2

/-! ### Concrete machine states along the trajectory

The following snapshots break the long runs into kernel-friendly chunks;
`S n` below is the machine state after `n` ticks from `initState`. -/

def S29 : AmbState :=
  { state := 1, counter := 48, hue1 := 112, hue2 := 16, ptr1 := 12, ptr2 := 4, hue := [0, 4, 8, 12, 16, 84, 88, 92, 96, 100, 104, 108, 112, 180, 184, 188], bright := [2, 3, 4, 5, 6, 0, 0, 1, 2, 3, 4, 5, 6, 0, 0, 1], rn := 44257 }

def S58 : AmbState :=
  { state := 1, counter := 19, hue1 := 36, hue2 := 132, ptr1 := 9, ptr2 := 1, hue := [128, 132, 8, 12, 16, 20, 24, 28, 32, 36, 104, 108, 112, 116, 120, 124], bright := [5, 6, 0, 0, 1, 2, 3, 4, 5, 6, 0, 0, 1, 2, 3, 4], rn := 44257 }

def S87 : AmbState :=
  { state := 2, counter := 66, hue1 := 112, hue2 := 16, ptr1 := 12, ptr2 := 4, hue := [152, 88, 8, 12, 16, 162, 131, 147, 96, 52, 13, 29, 118, 118, 39, 188], bright := [5, 2, 0, 0, 0, 2, 4, 0, 0, 4, 4, 3, 2, 3, 3, 0], rn := 16108 }

def S116 : AmbState :=
  { state := 2, counter := 37, hue1 := 112, hue2 := 16, ptr1 := 12, ptr2 := 4, hue := [16, 8, 81, 153, 26, 178, 67, 139, 148, 140, 165, 181, 70, 166, 119, 183], bright := [0, 3, 0, 0, 5, 1, 6, 1, 0, 4, 0, 0, 2, 0, 0, 0], rn := 21571 }

def S145 : AmbState :=
  { state := 2, counter := 8, hue1 := 112, hue2 := 16, ptr1 := 12, ptr2 := 4, hue := [168, 80, 41, 169, 90, 90, 139, 19, 164, 108, 141, 93, 182, 182, 95, 183], bright := [0, 4, 0, 0, 0, 0, 6, 3, 4, 5, 0, 2, 0, 2, 0, 0], rn := 29323 }

def S174 : AmbState :=
  { state := 4, counter := 56, hue1 := 112, hue2 := 16, ptr1 := 12, ptr2 := 4, hue := [135, 87, 53, 145, 41, 94, 159, 119, 89, 174, 165, 42, 52, 123, 90, 116], bright := [6, 6, 6, 6, 6, 6, 6, 6, 6, 6, 6, 6, 6, 6, 6, 6], rn := 19633 }

def S203 : AmbState :=
  { state := 4, counter := 27, hue1 := 112, hue2 := 16, ptr1 := 12, ptr2 := 4, hue := [36, 168, 154, 45, 142, 188, 60, 38, 14, 102, 80, 151, 162, 19, 174, 18], bright := [6, 6, 6, 6, 6, 6, 6, 6, 6, 6, 6, 6, 6, 6, 6, 6], rn := 4594 }

def S231 : AmbState :=
  { state := 6, counter := 76, hue1 := 192, hue2 := 16, ptr1 := 12, ptr2 := 4, hue := [0, 12, 24, 36, 48, 60, 72, 84, 96, 108, 120, 132, 144, 156, 168, 180], bright := [6, 6, 6, 6, 6, 6, 6, 6, 6, 6, 6, 6, 6, 6, 6, 6], rn := 5350 }

def S232 : AmbState :=
  { state := 6, counter := 75, hue1 := 192, hue2 := 16, ptr1 := 12, ptr2 := 4, hue := [180, 0, 12, 24, 36, 48, 60, 72, 84, 96, 108, 120, 132, 144, 156, 168], bright := [6, 6, 6, 6, 6, 6, 6, 6, 6, 6, 6, 6, 6, 6, 6, 6], rn := 5350 }

def S261 : AmbState :=
  { state := 6, counter := 46, hue1 := 192, hue2 := 16, ptr1 := 12, ptr2 := 4, hue := [24, 36, 48, 60, 72, 84, 96, 108, 120, 132, 144, 156, 168, 180, 0, 12], bright := [6, 6, 6, 6, 6, 6, 6, 6, 6, 6, 6, 6, 6, 6, 6, 6], rn := 5350 }

def S290 : AmbState :=
  { state := 6, counter := 17, hue1 := 192, hue2 := 16, ptr1 := 12, ptr2 := 4, hue := [60, 72, 84, 96, 108, 120, 132, 144, 156, 168, 180, 0, 12, 24, 36, 48], bright := [6, 6, 6, 6, 6, 6, 6, 6, 6, 6, 6, 6, 6, 6, 6, 6], rn := 5350 }

def S319 : AmbState :=
  { state := 7, counter := 64, hue1 := 36, hue2 := 16, ptr1 := 12, ptr2 := 4, hue := [36, 36, 36, 36, 36, 36, 36, 36, 36, 36, 36, 36, 36, 36, 36, 36], bright := [6, 6, 6, 6, 6, 6, 6, 6, 6, 6, 6, 6, 6, 6, 6, 6], rn := 5350 }

def S348 : AmbState :=
  { state := 7, counter := 35, hue1 := 123, hue2 := 16, ptr1 := 12, ptr2 := 4, hue := [123, 123, 123, 123, 123, 123, 123, 123, 123, 123, 123, 123, 123, 123, 123, 123], bright := [6, 6, 6, 6, 6, 6, 6, 6, 6, 6, 6, 6, 6, 6, 6, 6], rn := 5350 }

def S377 : AmbState :=
  { state := 7, counter := 6, hue1 := 18, hue2 := 16, ptr1 := 12, ptr2 := 4, hue := [18, 18, 18, 18, 18, 18, 18, 18, 18, 18, 18, 18, 18, 18, 18, 18], bright := [6, 6, 6, 6, 6, 6, 6, 6, 6, 6, 6, 6, 6, 6, 6, 6], rn := 5350 }

def S382 : AmbState :=
  { state := 7, counter := 1, hue1 := 33, hue2 := 16, ptr1 := 12, ptr2 := 4, hue := [33, 33, 33, 33, 33, 33, 33, 33, 33, 33, 33, 33, 33, 33, 33, 33], bright := [6, 6, 6, 6, 6, 6, 6, 6, 6, 6, 6, 6, 6, 6, 6, 6], rn := 5350 }

def S383 : AmbState :=
  { state := 0, counter := 76, hue1 := 36, hue2 := 16, ptr1 := 12, ptr2 := 4, hue := [36, 36, 36, 36, 36, 36, 36, 36, 36, 36, 36, 36, 36, 36, 36, 36], bright := [6, 6, 6, 6, 6, 6, 6, 6, 6, 6, 6, 6, 6, 6, 6, 6], rn := 5350 }

def S406 : AmbState :=
  { state := 1, counter := 54, hue1 := 88, hue2 := 184, ptr1 := 6, ptr2 := 14, hue := [64, 68, 72, 76, 80, 84, 88, 156, 160, 164, 168, 172, 176, 180, 184, 60], bright := [0, 1, 2, 3, 4, 5, 6, 0, 0, 1, 2, 3, 4, 5, 6, 0], rn := 5350 }

def S435 : AmbState :=
  { state := 1, counter := 25, hue1 := 12, hue2 := 108, ptr1 := 3, ptr2 := 11, hue := [0, 4, 8, 12, 80, 84, 88, 92, 96, 100, 104, 108, 176, 180, 184, 188], bright := [3, 4, 5, 6, 0, 0, 1, 2, 3, 4, 5, 6, 0, 0, 1, 2], rn := 5350 }

def S464 : AmbState :=
  { state := 2, counter := 72, hue1 := 112, hue2 := 16, ptr1 := 12, ptr2 := 4, hue := [0, 4, 8, 137, 16, 84, 99, 92, 100, 12, 104, 108, 112, 180, 167, 188], bright := [0, 0, 0, 3, 2, 0, 5, 0, 6, 5, 0, 1, 2, 0, 3, 0], rn := 29284 }

def S493 : AmbState :=
  { state := 2, counter := 43, hue1 := 112, hue2 := 16, ptr1 := 12, ptr2 := 4, hue := [152, 128, 33, 97, 162, 34, 75, 19, 156, 116, 77, 69, 126, 6, 135, 23], bright := [6, 0, 0, 6, 2, 0, 0, 4, 3, 5, 5, 0, 0, 0, 0, 0], rn := 32024 }

def S522 : AmbState :=
  { state := 2, counter := 14, hue1 := 112, hue2 := 16, ptr1 := 12, ptr2 := 4, hue := [0, 64, 41, 97, 162, 114, 75, 43, 116, 60, 37, 61, 126, 150, 191, 71], bright := [0, 0, 3, 6, 0, 5, 0, 0, 0, 5, 2, 0, 0, 0, 0, 6], rn := 51169 }

def S551 : AmbState :=
  { state := 4, counter := 62, hue1 := 112, hue2 := 16, ptr1 := 12, ptr2 := 4, hue := [56, 53, 20, 131, 182, 59, 58, 50, 180, 26, 134, 7, 127, 180, 109, 162], bright := [6, 6, 6, 6, 6, 6, 6, 6, 6, 6, 6, 6, 6, 6, 6, 6], rn := 22201 }

def S580 : AmbState :=
  { state := 4, counter := 33, hue1 := 112, hue2 := 16, ptr1 := 12, ptr2 := 4, hue := [154, 165, 124, 21, 90, 170, 181, 167, 82, 136, 45, 109, 25, 86, 35, 91], bright := [6, 6, 6, 6, 6, 6, 6, 6, 6, 6, 6, 6, 6, 6, 6, 6], rn := 15807 }

def S608 : AmbState :=
  { state := 4, counter := 5, hue1 := 112, hue2 := 16, ptr1 := 12, ptr2 := 4, hue := [55, 50, 16, 105, 183, 78, 85, 76, 185, 69, 140, 25, 125, 187, 153, 191], bright := [6, 6, 6, 6, 6, 6, 6, 6, 6, 6, 6, 6, 6, 6, 6, 6], rn := 21995 }

def S609 : AmbState :=
  { state := 4, counter := 4, hue1 := 112, hue2 := 16, ptr1 := 12, ptr2 := 4, hue := [60, 52, 21, 111, 190, 85, 88, 81, 191, 72, 145, 27, 130, 1, 160, 2], bright := [6, 6, 6, 6, 6, 6, 6, 6, 6, 6, 6, 6, 6, 6, 6, 6], rn := 38467 }

def S638 : AmbState :=
  { state := 6, counter := 52, hue1 := 192, hue2 := 16, ptr1 := 12, ptr2 := 4, hue := [96, 108, 120, 132, 144, 156, 168, 180, 0, 12, 24, 36, 48, 60, 72, 84], bright := [6, 6, 6, 6, 6, 6, 6, 6, 6, 6, 6, 6, 6, 6, 6, 6], rn := 43369 }

def S667 : AmbState :=
  { state := 6, counter := 23, hue1 := 192, hue2 := 16, ptr1 := 12, ptr2 := 4, hue := [132, 144, 156, 168, 180, 0, 12, 24, 36, 48, 60, 72, 84, 96, 108, 120], bright := [6, 6, 6, 6, 6, 6, 6, 6, 6, 6, 6, 6, 6, 6, 6, 6], rn := 43369 }

def S696 : AmbState :=
  { state := 7, counter := 70, hue1 := 18, hue2 := 16, ptr1 := 12, ptr2 := 4, hue := [18, 18, 18, 18, 18, 18, 18, 18, 18, 18, 18, 18, 18, 18, 18, 18], bright := [6, 6, 6, 6, 6, 6, 6, 6, 6, 6, 6, 6, 6, 6, 6, 6], rn := 43369 }

def S725 : AmbState :=
  { state := 7, counter := 41, hue1 := 105, hue2 := 16, ptr1 := 12, ptr2 := 4, hue := [105, 105, 105, 105, 105, 105, 105, 105, 105, 105, 105, 105, 105, 105, 105, 105], bright := [6, 6, 6, 6, 6, 6, 6, 6, 6, 6, 6, 6, 6, 6, 6, 6], rn := 43369 }

def S754 : AmbState :=
  { state := 7, counter := 12, hue1 := 0, hue2 := 16, ptr1 := 12, ptr2 := 4, hue := [0, 0, 0, 0, 0, 0, 0, 0, 0, 0, 0, 0, 0, 0, 0, 0], bright := [6, 6, 6, 6, 6, 6, 6, 6, 6, 6, 6, 6, 6, 6, 6, 6], rn := 43369 }

def S766 : AmbState :=
  { state := 0, counter := 76, hue1 := 36, hue2 := 16, ptr1 := 12, ptr2 := 4, hue := [36, 36, 36, 36, 36, 36, 36, 36, 36, 36, 36, 36, 36, 36, 36, 36], bright := [6, 6, 6, 6, 6, 6, 6, 6, 6, 6, 6, 6, 6, 6, 6, 6], rn := 43369 }

lemma run_add (m n : Nat) (s : AmbState) : run (m + n) s = run n (run m s) := by
  induction m generalizing s with
  | zero => rw [Nat.zero_add]; rfl
  | succ m ih =>
      rw [show m + 1 + n = (m + n) + 1 by omega]
      show run (m + n) (tick s) = _
      rw [ih (tick s)]
      rfl

lemma runStep_0_29 : run 29 initState = S29 := by decide

lemma runStep_29_58 : run 29 S29 = S58 := by decide

lemma runStep_58_87 : run 29 S58 = S87 := by decide

lemma runStep_87_116 : run 29 S87 = S116 := by decide

lemma runStep_116_145 : run 29 S116 = S145 := by decide

lemma runStep_145_174 : run 29 S145 = S174 := by decide

lemma runStep_174_203 : run 29 S174 = S203 := by decide

lemma runStep_203_231 : run 28 S203 = S231 := by decide

lemma runStep_231_232 : run 1 S231 = S232 := by decide

lemma runStep_232_261 : run 29 S232 = S261 := by decide

lemma runStep_261_290 : run 29 S261 = S290 := by decide

lemma runStep_290_319 : run 29 S290 = S319 := by decide

lemma runStep_319_348 : run 29 S319 = S348 := by decide

lemma runStep_348_377 : run 29 S348 = S377 := by decide

lemma runStep_377_382 : run 5 S377 = S382 := by decide

lemma runStep_382_383 : run 1 S382 = S383 := by decide

lemma runStep_383_406 : run 23 S383 = S406 := by decide

lemma runStep_406_435 : run 29 S406 = S435 := by decide

lemma runStep_435_464 : run 29 S435 = S464 := by decide

lemma runStep_464_493 : run 29 S464 = S493 := by decide

lemma runStep_493_522 : run 29 S493 = S522 := by decide

lemma runStep_522_551 : run 29 S522 = S551 := by decide

lemma runStep_551_580 : run 29 S551 = S580 := by decide

lemma runStep_580_608 : run 28 S580 = S608 := by decide

lemma runStep_608_609 : run 1 S608 = S609 := by decide

lemma runStep_609_638 : run 29 S609 = S638 := by decide

lemma runStep_638_667 : run 29 S638 = S667 := by decide

lemma runStep_667_696 : run 29 S667 = S696 := by decide

lemma runStep_696_725 : run 29 S696 = S725 := by decide

lemma runStep_725_754 : run 29 S725 = S754 := by decide

lemma runStep_754_766 : run 12 S754 = S766 := by decide

lemma run29_eq : run 29 initState = S29 := runStep_0_29

lemma run58_eq : run 58 initState = S58 := by
  rw [show (58 : Nat) = 29 + 29 from rfl, run_add, run29_eq, runStep_29_58]

lemma run87_eq : run 87 initState = S87 := by
  rw [show (87 : Nat) = 58 + 29 from rfl, run_add, run58_eq, runStep_58_87]

lemma run116_eq : run 116 initState = S116 := by
  rw [show (116 : Nat) = 87 + 29 from rfl, run_add, run87_eq, runStep_87_116]

lemma run145_eq : run 145 initState = S145 := by
  rw [show (145 : Nat) = 116 + 29 from rfl, run_add, run116_eq, runStep_116_145]

lemma run174_eq : run 174 initState = S174 := by
  rw [show (174 : Nat) = 145 + 29 from rfl, run_add, run145_eq, runStep_145_174]

lemma run203_eq : run 203 initState = S203 := by
  rw [show (203 : Nat) = 174 + 29 from rfl, run_add, run174_eq, runStep_174_203]

lemma run231_eq : run 231 initState = S231 := by
  rw [show (231 : Nat) = 203 + 28 from rfl, run_add, run203_eq, runStep_203_231]

lemma run232_eq : run 232 initState = S232 := by
  rw [show (232 : Nat) = 231 + 1 from rfl, run_add, run231_eq, runStep_231_232]

lemma run261_eq : run 261 initState = S261 := by
  rw [show (261 : Nat) = 232 + 29 from rfl, run_add, run232_eq, runStep_232_261]

lemma run290_eq : run 290 initState = S290 := by
  rw [show (290 : Nat) = 261 + 29 from rfl, run_add, run261_eq, runStep_261_290]

lemma run319_eq : run 319 initState = S319 := by
  rw [show (319 : Nat) = 290 + 29 from rfl, run_add, run290_eq, runStep_290_319]

lemma run348_eq : run 348 initState = S348 := by
  rw [show (348 : Nat) = 319 + 29 from rfl, run_add, run319_eq, runStep_319_348]

lemma run377_eq : run 377 initState = S377 := by
  rw [show (377 : Nat) = 348 + 29 from rfl, run_add, run348_eq, runStep_348_377]

lemma run382_eq : run 382 initState = S382 := by
  rw [show (382 : Nat) = 377 + 5 from rfl, run_add, run377_eq, runStep_377_382]

lemma run383_eq : run 383 initState = S383 := by
  rw [show (383 : Nat) = 382 + 1 from rfl, run_add, run382_eq, runStep_382_383]

lemma run406_eq : run 406 initState = S406 := by
  rw [show (406 : Nat) = 383 + 23 from rfl, run_add, run383_eq, runStep_383_406]

lemma run435_eq : run 435 initState = S435 := by
  rw [show (435 : Nat) = 406 + 29 from rfl, run_add, run406_eq, runStep_406_435]

lemma run464_eq : run 464 initState = S464 := by
  rw [show (464 : Nat) = 435 + 29 from rfl, run_add, run435_eq, runStep_435_464]

lemma run493_eq : run 493 initState = S493 := by
  rw [show (493 : Nat) = 464 + 29 from rfl, run_add, run464_eq, runStep_464_493]

lemma run522_eq : run 522 initState = S522 := by
  rw [show (522 : Nat) = 493 + 29 from rfl, run_add, run493_eq, runStep_493_522]

lemma run551_eq : run 551 initState = S551 := by
  rw [show (551 : Nat) = 522 + 29 from rfl, run_add, run522_eq, runStep_522_551]

lemma run580_eq : run 580 initState = S580 := by
  rw [show (580 : Nat) = 551 + 29 from rfl, run_add, run551_eq, runStep_551_580]

lemma run608_eq : run 608 initState = S608 := by
  rw [show (608 : Nat) = 580 + 28 from rfl, run_add, run580_eq, runStep_580_608]

lemma run609_eq : run 609 initState = S609 := by
  rw [show (609 : Nat) = 608 + 1 from rfl, run_add, run608_eq, runStep_608_609]

lemma run638_eq : run 638 initState = S638 := by
  rw [show (638 : Nat) = 609 + 29 from rfl, run_add, run609_eq, runStep_609_638]

lemma run667_eq : run 667 initState = S667 := by
  rw [show (667 : Nat) = 638 + 29 from rfl, run_add, run638_eq, runStep_638_667]

lemma run696_eq : run 696 initState = S696 := by
  rw [show (696 : Nat) = 667 + 29 from rfl, run_add, run667_eq, runStep_667_696]

lemma run725_eq : run 725 initState = S725 := by
  rw [show (725 : Nat) = 696 + 29 from rfl, run_add, run696_eq, runStep_696_725]

lemma run754_eq : run 754 initState = S754 := by
  rw [show (754 : Nat) = 725 + 29 from rfl, run_add, run725_eq, runStep_725_754]

lemma run766_eq : run 766 initState = S766 := by
  rw [show (766 : Nat) = 754 + 12 from rfl, run_add, run754_eq, runStep_754_766]

lemma noReturn_add (m n : Nat) (s : AmbState) :
    noReturn (m + n) s = (noReturn m s && noReturn n (run m s)) := by
  induction m generalizing s with
  | zero => rw [Nat.zero_add]; simp only [noReturn, run, Bool.true_and]
  | succ m ih =>
      rw [show m + 1 + n = (m + n) + 1 by omega]
      show (((tick s).state != 0) && noReturn (m + n) (tick s)) = _
      rw [ih (tick s)]
      show _ = ((((tick s).state != 0) && noReturn m (tick s)) &&
        noReturn n (run m (tick s)))
      rw [Bool.and_assoc]

lemma noReturnStep_0_29 : noReturn 29 initState = true := by decide

lemma noReturnStep_29_58 : noReturn 29 S29 = true := by decide

lemma noReturnStep_58_87 : noReturn 29 S58 = true := by decide

lemma noReturnStep_87_116 : noReturn 29 S87 = true := by decide

lemma noReturnStep_116_145 : noReturn 29 S116 = true := by decide

lemma noReturnStep_145_174 : noReturn 29 S145 = true := by decide

lemma noReturnStep_174_203 : noReturn 29 S174 = true := by decide

lemma noReturnStep_203_231 : noReturn 28 S203 = true := by decide

lemma noReturnStep_231_232 : noReturn 1 S231 = true := by decide

lemma noReturnStep_232_261 : noReturn 29 S232 = true := by decide

lemma noReturnStep_261_290 : noReturn 29 S261 = true := by decide

lemma noReturnStep_290_319 : noReturn 29 S290 = true := by decide

lemma noReturnStep_319_348 : noReturn 29 S319 = true := by decide

lemma noReturnStep_348_377 : noReturn 29 S348 = true := by decide

lemma noReturnStep_377_382 : noReturn 5 S377 = true := by decide

lemma noReturn29_acc : noReturn 29 initState = true := noReturnStep_0_29

lemma noReturn58_acc : noReturn 58 initState = true := by
  rw [show (58 : Nat) = 29 + 29 from rfl, noReturn_add, run29_eq,
    noReturn29_acc, noReturnStep_29_58, Bool.true_and]

lemma noReturn87_acc : noReturn 87 initState = true := by
  rw [show (87 : Nat) = 58 + 29 from rfl, noReturn_add, run58_eq,
    noReturn58_acc, noReturnStep_58_87, Bool.true_and]

lemma noReturn116_acc : noReturn 116 initState = true := by
  rw [show (116 : Nat) = 87 + 29 from rfl, noReturn_add, run87_eq,
    noReturn87_acc, noReturnStep_87_116, Bool.true_and]

lemma noReturn145_acc : noReturn 145 initState = true := by
  rw [show (145 : Nat) = 116 + 29 from rfl, noReturn_add, run116_eq,
    noReturn116_acc, noReturnStep_116_145, Bool.true_and]

lemma noReturn174_acc : noReturn 174 initState = true := by
  rw [show (174 : Nat) = 145 + 29 from rfl, noReturn_add, run145_eq,
    noReturn145_acc, noReturnStep_145_174, Bool.true_and]

lemma noReturn203_acc : noReturn 203 initState = true := by
  rw [show (203 : Nat) = 174 + 29 from rfl, noReturn_add, run174_eq,
    noReturn174_acc, noReturnStep_174_203, Bool.true_and]

lemma noReturn231_acc : noReturn 231 initState = true := by
  rw [show (231 : Nat) = 203 + 28 from rfl, noReturn_add, run203_eq,
    noReturn203_acc, noReturnStep_203_231, Bool.true_and]

lemma noReturn232_acc : noReturn 232 initState = true := by
  rw [show (232 : Nat) = 231 + 1 from rfl, noReturn_add, run231_eq,
    noReturn231_acc, noReturnStep_231_232, Bool.true_and]

lemma noReturn261_acc : noReturn 261 initState = true := by
  rw [show (261 : Nat) = 232 + 29 from rfl, noReturn_add, run232_eq,
    noReturn232_acc, noReturnStep_232_261, Bool.true_and]

lemma noReturn290_acc : noReturn 290 initState = true := by
  rw [show (290 : Nat) = 261 + 29 from rfl, noReturn_add, run261_eq,
    noReturn261_acc, noReturnStep_261_290, Bool.true_and]

lemma noReturn319_acc : noReturn 319 initState = true := by
  rw [show (319 : Nat) = 290 + 29 from rfl, noReturn_add, run290_eq,
    noReturn290_acc, noReturnStep_290_319, Bool.true_and]

lemma noReturn348_acc : noReturn 348 initState = true := by
  rw [show (348 : Nat) = 319 + 29 from rfl, noReturn_add, run319_eq,
    noReturn319_acc, noReturnStep_319_348, Bool.true_and]

lemma noReturn377_acc : noReturn 377 initState = true := by
  rw [show (377 : Nat) = 348 + 29 from rfl, noReturn_add, run348_eq,
    noReturn348_acc, noReturnStep_348_377, Bool.true_and]

lemma noReturn382_acc : noReturn 382 initState = true := by
  rw [show (382 : Nat) = 377 + 5 from rfl, noReturn_add, run377_eq,
    noReturn377_acc, noReturnStep_377_382, Bool.true_and]

/-- Counterexample for C2 as stated: after exactly 8×76 = 608 ticks from
the initial state the machine is in state 4, not back in state 0 (states
0, 3 and 5 hold for a single tick because their actions set
`counter = 1`). -/
theorem claim2_counterexample : (run 608 initState).state = 4 := by
  rw [run608_eq]; rfl

/-- C2 (amended): starting at state 0, the machine first returns to
state 0 after exactly 383 ticks (1+76+76+1+76+1+76+76 — states 0, 3 and 5
set `counter = 1` and hold a single tick each, the other five states hold
76), not 8×76; the state value is nonzero after each of the intervening
382 ticks; and at the next visit to state 0 (tick 766) the persistent
parameters `hue1`, `hue2`, `ptr1`, `ptr2` are identical to those held at
the previous visit (state 0 resets them on entry, so successive
visits carry exactly the same parameters — the per-cycle hue progression
of states 1 and 7 is re-run identically each cycle). -/
theorem claim2_amended :
    (run 383 initState).state = 0 ∧
    noReturn 382 initState = true ∧
    (run 766 initState).state = 0 ∧
    (run 766 initState).hue1 = (run 383 initState).hue1 ∧
    (run 766 initState).hue2 = (run 383 initState).hue2 ∧
    (run 766 initState).ptr1 = (run 383 initState).ptr1 ∧
    (run 766 initState).ptr2 = (run 383 initState).ptr2 := by
  rw [run383_eq, run766_eq]
  exact ⟨rfl, noReturn382_acc, rfl, rfl, rfl, rfl, rfl⟩

/-- Counterexample for C7 as stated: after tick 231 (the single tick of
state 5, the rainbow fill) the persistent hue parameter `hue1` holds 192,
which is outside `[0,192)`; it stays there through all of state 6 and is
only wrapped back on the first tick of state 7. -/
theorem claim7_counterexample : (run 231 initState).hue1 = 192 := by
  rw [run231_eq]; rfl

/-! ### The hue-domain invariant (C7, amended)

Every hue stored in the pixel buffer and `hue2` stay in `[0,192)`, while
`hue1` stays in `[0,192]` — the value 192 is reachable (left by state 5)
but never exceeded, and every value actually stored into the buffer is
below 192. -/

/-- The invariant maintained by every tick of the ambient machine. -/
def Inv (s : AmbState) : Prop :=
  s.hue1 ≤ 192 ∧ s.hue2 < 192 ∧ ∀ h ∈ s.hue, h < 192

lemma wrap192_lt (x : Nat) (hx : x ≤ 255) : wrap192 x < 192 := by
  unfold wrap192; split_ifs <;> omega

lemma mem_set_lt {l : List Nat} {i v : Nat} (hl : ∀ x ∈ l, x < 192)
    (hv : v < 192) : ∀ x ∈ l.set i v, x < 192 := by
  intro x hx
  rcases List.mem_or_eq_of_mem_set hx with hm | rfl
  · exact hl x hm
  · exact hv

lemma prng_fst_lt (bound rn : Nat) (hb : 0 < bound) :
    (prng bound rn).1 < bound := Nat.mod_lt _ hb

lemma sparkle_hue_lt : ∀ (k : Nat) (h b : List Nat) (rn : Nat),
    (∀ x ∈ h, x < 192) → ∀ x ∈ (sparkle k h b rn).1, x < 192
  | 0, h, b, rn, hh => hh
  | k + 1, h, b, rn, hh => by
      simp only [sparkle, NEO_set]
      exact sparkle_hue_lt k _ _ _
        (mem_set_lt hh (prng_fst_lt 192 _ (by omega)))

lemma randomize_hue_lt : ∀ (l : List Nat) (acc : List Nat × List Nat × Nat),
    (∀ x ∈ acc.1, x < 192) →
    ∀ x ∈ (l.foldl
      (fun acc i =>
        let p := prng 192 acc.2.2
        (acc.1.set i p.1, acc.2.1.set i 6, p.2)) acc).1, x < 192
  | [], _, hacc => hacc
  | i :: is, acc, hacc => by
      simp only [List.foldl_cons]
      exact randomize_hue_lt is _
        (mem_set_lt hacc (prng_fst_lt 192 _ (by omega)))

lemma drift_hue_lt : ∀ (l : List Nat) (acc : List Nat × Nat),
    (∀ x ∈ acc.1, x < 192) →
    ∀ x ∈ (l.foldl
      (fun acc i =>
        let p := prng 8 acc.2
        (acc.1.set i (wrap192 ((acc.1.getD i 0 + p.1) % 256)), p.2)) acc).1,
      x < 192
  | [], _, hacc => hacc
  | i :: is, acc, hacc => by
      simp only [List.foldl_cons]
      exact drift_hue_lt is _
        (mem_set_lt hacc (wrap192_lt _ (by omega)))

lemma rainbow_hue_lt : ∀ (l : List Nat) (h b : List Nat) (hu : Nat),
    (∀ x ∈ h, x < 192) → hu + 12 * l.length ≤ 192 →
    (∀ x ∈ (l.foldl
      (fun acc i =>
        (acc.1.set i acc.2.2, acc.2.1.set i 6, (acc.2.2 + 12) % 256))
      (h, b, hu)).1, x < 192) ∧
    (l.foldl
      (fun acc i =>
        (acc.1.set i acc.2.2, acc.2.1.set i 6, (acc.2.2 + 12) % 256))
      (h, b, hu)).2.2 ≤ 192
  | [], h, b, hu, hh, hbound => ⟨hh, by simpa using hbound⟩
  | i :: is, h, b, hu, hh, hbound => by
      simp only [List.foldl_cons]
      have hlen : hu + 12 * (i :: is).length =
          hu + 12 * is.length + 12 := by simp [List.length_cons]; ring
      have hu180 : hu < 192 := by omega
      have hmod : (hu + 12) % 256 = hu + 12 := Nat.mod_eq_of_lt (by omega)
      rw [hmod]
      exact rainbow_hue_lt is _ _ _ (mem_set_lt hh hu180) (by omega)

lemma getLast?_mem_of_eq : ∀ (l : List Nat) (a : Nat),
    l.getLast? = some a → a ∈ l
  | [], a, hq => by simp at hq
  | [x], a, hq => by
      simp only [List.getLast?_singleton, Option.some.injEq] at hq
      simp [hq]
  | x :: y :: t, a, hq => by
      rw [List.getLast?_cons_cons] at hq
      exact List.mem_cons_of_mem x (getLast?_mem_of_eq (y :: t) a hq)

lemma mem_of_mem_dropLast_aux : ∀ (l : List Nat) (x : Nat),
    x ∈ l.dropLast → x ∈ l
  | [], x, hx => by simp at hx
  | [a], x, hx => by simp at hx
  | a :: b :: t, x, hx => by
      rw [List.dropLast_cons₂] at hx
      rcases List.mem_cons.mp hx with rfl | hx'
      · exact List.mem_cons_self x _
      · exact List.mem_cons_of_mem a (mem_of_mem_dropLast_aux (b :: t) x hx')

lemma cwList_mem_lt (l : List Nat) (hl : ∀ x ∈ l, x < 192) :
    ∀ x ∈ cwList l, x < 192 := by
  unfold cwList
  cases hq : l.getLast? with
  | none => simp
  | some a =>
      intro x hx
      rcases List.mem_cons.mp hx with rfl | hx'
      · exact hl x (getLast?_mem_of_eq l x hq)
      · exact hl x (mem_of_mem_dropLast_aux l x hx')

lemma tickAction_inv (s : AmbState) (hs : Inv s) : Inv (tickAction s) := by
  obtain ⟨h1, h2, hb⟩ := hs
  unfold tickAction
  split_ifs with e0 e1 e2 e3 e4 e5 e6 e7 <;>
    unfold Inv <;>
    (try dsimp only [NEO_set, NEO_fadeOut, NEO_fill, NEO_cw])
  · exact ⟨by omega, by omega, hb⟩
  · refine ⟨?_, ?_, ?_⟩
    · exact Nat.le_of_lt (wrap192_lt _ (by omega))
    · exact wrap192_lt _ (by omega)
    · exact mem_set_lt (mem_set_lt hb (wrap192_lt _ (by omega)))
        (wrap192_lt _ (by omega))
  · exact ⟨h1, h2, sparkle_hue_lt _ _ _ _ hb⟩
  · exact ⟨h1, h2, randomize_hue_lt _ _ hb⟩
  · exact ⟨h1, h2, drift_hue_lt _ _ hb⟩
  · have hr := rainbow_hue_lt (List.range 16) s.hue s.bright 0 hb
      (by norm_num)
    exact ⟨hr.2, h2, hr.1⟩
  · exact ⟨h1, h2, cwList_mem_lt _ hb⟩
  · refine ⟨Nat.le_of_lt (wrap192_lt _ (by omega)), h2, ?_⟩
    intro x hx
    simp only [List.mem_map] at hx
    obtain ⟨y, _, rfl⟩ := hx
    exact wrap192_lt _ (by omega)
  · exact ⟨h1, h2, hb⟩

lemma tickCounter_inv (s : AmbState) (hs : Inv s) : Inv (tickCounter s) := by
  unfold tickCounter
  dsimp only
  split_ifs <;> exact hs

lemma run_inv (n : Nat) (s : AmbState) (hs : Inv s) : Inv (run n s) := by
  induction n generalizing s with
  | zero => exact hs
  | succ n ih => exact ih (tick s) (tickCounter_inv _ (tickAction_inv _ hs))

lemma initState_inv : Inv initState :=
  ⟨by decide, by decide, by decide⟩

/-- C7 (amended): after every tick of the ambient variant, every hue in
the pixel buffer and the persistent parameter `hue2` lie in `[0,192)`,
and `hue1` lies in `[0,192]` — the endpoint 192 is actually reached (see
the counterexample: state 5's rainbow fill leaves `hue1 = 192`, which
states 6 and 7 then carry until state 7's first tick wraps it), but no
hue quantity ever exceeds 192, and every hue stored in the buffer is
wrapped back into `[0,192)` before being stored. -/
theorem claim7_amended (n : Nat) :
    (run n initState).hue1 ≤ 192 ∧
    (run n initState).hue2 < 192 ∧
    (run n initState).hue.all (fun h => decide (h < 192)) = true := by
  obtain ⟨a, b, c⟩ := run_inv n initState initState_inv
  refine ⟨a, b, ?_⟩
  rw [List.all_eq_true]
  intro x hx
  exact decide_eq_true (c x hx)

/-! ### The reactive variant's button-triggered spin
(wof variant, `main`, lines 135-153)

On a button press the code reads the free-running timer,
`speed = 16 + (TCNT0 & 15)`, then runs two delay loops that advance the
active pixel and hue and render one pixel per iteration.  The rendered
trace is the list of `(number, hue)` pairs passed to `NEO_setPixel`. -/

/-- Source statement `if(++hue > 191) hue = 0;` (uint8 increment; for the reachable values
`hue ≤ 191` the `% 256` is the identity). -/
def nextHueWof (h : Nat) : Nat :=
  let t := (h + 1) % 256
  if t > 191 then 0 else t

/-- The first loop, `while(--speed) { ...; delayms(speed); }`: uint8
pre-decrement, then exit on zero; the body advances hue and pixel and
renders.  Returns the rendered trace and the final `(number, hue)`.
Every reachable call has `speed ≥ 1` (the injected speed is in `[16,32)`),
so the pre-decrement never wraps below zero. -/
def spinDown (speed n h : Nat) : List (Nat × Nat) × Nat × Nat :=
  if hz : speed - 1 = 0 then ([], n, h)
  else
    let h2 := nextHueWof h
    let n2 := (n + 1) &&& 15
    let rest := spinDown (speed - 1) n2 h2
    ((n2, h2) :: rest.1, rest.2)
termination_by speed
decreasing_by omega

/-- The second loop, `while(++speed < 96) { ...; delayms(speed); }`: the
increment cannot wrap in uint8 because the loop exits as soon as the value
reaches 96 (< 256); it is entered with `speed = 0`. -/
def spinUp (speed n h : Nat) : List (Nat × Nat) :=
  if hlt : speed + 1 < 96 then
    let h2 := nextHueWof h
    let n2 := (n + 1) &&& 15
    (n2, h2) :: spinUp (speed + 1) n2 h2
  else []
termination_by 96 - speed
decreasing_by omega

/-- The full spin from an injected starting speed: the decelerating-delay
loop runs down to zero, then the accelerating-delay loop runs the speed
back up to 96.  The result is the complete rendered `(number, hue)`
trace. -/
def spin (speed n h : Nat) : List (Nat × Nat) :=
  let d := spinDown speed n h
  d.1 ++ spinUp 0 d.2.1 d.2.2

/-- The whole button handler's rendering trace: the starting speed is
`16 + (TCNT0 & 15)` where `tcnt` is the timer value read at the button
press. -/
def buttonSpin (tcnt n h : Nat) : List (Nat × Nat) :=
  spin (16 + (tcnt &&& 15)) n h

/-- C8: the rendered `(position, hue)` trace of one full button-triggered
spin is a deterministic function of the injected starting speed and the
starting position and hue: two runs whose timer reads induce the same
injected speed (and which start from the same position and hue) render
identical traces — nothing else (no timer state, no hidden input) can
influence the spin. -/
theorem claim8_spin_deterministic (t1 t2 n h : Nat)
    (ht : t1 &&& 15 = t2 &&& 15) :
    buttonSpin t1 n h = buttonSpin t2 n h := by
  unfold buttonSpin
  rw [ht]

/-- Witness for C8: timer reads 3 and 19 inject the same speed. -/
theorem claim8_witness :
    (3 : Nat) &&& 15 = (19 : Nat) &&& 15 ∧
    buttonSpin 3 0 0 = buttonSpin 19 0 0 :=
  ⟨by decide, claim8_spin_deterministic 3 19 0 0 (by decide)⟩

end TinyBling
